import Mathlib

/-!
Shallow embedding of the `magic_static` one-time-initialization primitive
(src/magic_static/src/private.rs and the `init!` / `magic_statics_mod!`
macros of src/magic_static/src/lib.rs).

Modelling conventions:
* The slot struct `MagicStatic<T>` keeps its source name.  Its
  `initialized` field is an `AtomicBool` (or `UnsafeCell<bool>` under the
  `bare-metal` feature); both are modelled as `Bool` (`SlotFlag`).  The
  `value: UnsafeCell<MaybeUninit<T>>` storage is modelled as `Option T`
  (`none` = still uninitialized memory).  The producer `init: fn() -> T`
  may have side effects (printing, bumping counters) and may panic, so it
  is modelled as an explicit state transformer `σ → Except String (σ × T)`
  where an `Except.error` models a producer panic and `σ` is the ambient
  effect state.
* `__init` keeps its source name.  In the default (non bare-metal) build
  it is `fetch_update(SeqCst, SeqCst, |initialized| ...)`:
  the closure returns `None` when the flag is already set, which makes
  `fetch_update` return `Err(true)` and the function panic with
  `doubleInitMsg`; otherwise the closure runs the producer, writes the
  storage and returns `Some(true)`.  A producer panic unwinds before the
  compare-and-set, leaving flag and storage untouched.
* The `bare-metal` variant (`initBM`) asserts the flag is unset (panicking
  with the same message otherwise), then sets the flag BEFORE running the
  producer and writing the storage.
* `Deref::deref` is modelled by `deref dbg s` where `dbg` is the
  `debug_assertions` build flag: in debug builds a `debug_assert!` panics
  with `uninitReadMsg` when the flag is unset; in release builds there is
  no check and the raw storage (possibly `none`, an uninitialized read) is
  returned.
* Panics are surfaced as the `InitResult.panic` constructor (for `__init`,
  which also records the state at the moment of unwinding) or as
  `Except.error` (for `deref` and formatting).
-/

namespace MagicStaticSpec

/-- The type of the slot flag in the source: `AtomicBool` in the default
build, `UnsafeCell<bool>` in the `bare-metal` build.  Either way the state
space of a slot flag is `Bool`. -/
abbrev SlotFlag := Bool

/-- Panic message of `__init` (private.rs lines 62 and 67). -/
def doubleInitMsg : String :=
  "This magic static has already been initialized! It looks like you have multiple calls to `magic_static::init()`"

/-- Panic message of the `debug_assert!` in `Deref::deref` (private.rs lines 80-83). -/
def uninitReadMsg : String :=
  "This magic static has not been initialized yet! You need to add `#[magic_static::main]` to your main function, or call `magic_static::init()` at an appropriate time."

/-- The slot struct `MagicStatic<T>` of private.rs lines 22-36, with the
producer given an explicit effect state `σ`. -/
structure MagicStatic (σ T : Type) where
  initialized : SlotFlag
  value : Option T
  init : σ → Except String (σ × T)

/-- Outcome of a call to `__init` / the bare-metal variant: either a normal
return or a panic carrying its message, each with the effect state and the
slot contents at the moment of returning/unwinding. -/
inductive InitResult (σ T : Type) where
  | ok : σ → MagicStatic σ T → InitResult σ T
  | panic : String → σ → MagicStatic σ T → InitResult σ T

/-- Whether the call panicked. -/
def InitResult.isPanic {σ T : Type} : InitResult σ T → Bool
  | InitResult.ok _ _ => false
  | InitResult.panic _ _ _ => true

/-- The panic message, when the call panicked. -/
def InitResult.panicMsg {σ T : Type} : InitResult σ T → Option String
  | InitResult.ok _ _ => none
  | InitResult.panic m _ _ => some m

/-- The effect state after the call. -/
def InitResult.stateOf {σ T : Type} : InitResult σ T → σ
  | InitResult.ok st _ => st
  | InitResult.panic _ st _ => st

/-- The slot contents after the call. -/
def InitResult.slotOf {σ T : Type} : InitResult σ T → MagicStatic σ T
  | InitResult.ok _ s => s
  | InitResult.panic _ _ s => s

/-- `MagicStatic::__init` in the default (non bare-metal) build,
private.rs lines 52-63.  `fetch_update` runs the closure on the current
flag: if the flag is set the closure yields `None`, `fetch_update` returns
`Err(true)` and the function panics with `doubleInitMsg`; otherwise the
closure runs the producer, writes the storage, and the compare-and-set
publishes the flag.  A producer panic unwinds before the compare-and-set,
so flag and storage are left untouched. -/
def __init {σ T : Type} (s : MagicStatic σ T) (st : σ) : InitResult σ T :=
  if s.initialized then
    InitResult.panic doubleInitMsg st s
  else
    match s.init st with
    | Except.error e => InitResult.panic e st s
    | Except.ok (st2, v) => InitResult.ok st2 (MagicStatic.mk true (some v) s.init)

/-- `MagicStatic::__init` under the `bare-metal` feature, private.rs lines
65-71: `assert!` that the flag is unset (panicking with `doubleInitMsg`
otherwise), then set the flag, then run the producer and write the
storage.  Note the flag is set BEFORE the producer runs, so a producer
panic leaves the flag set with the storage unwritten. -/
def initBM {σ T : Type} (s : MagicStatic σ T) (st : σ) : InitResult σ T :=
  if s.initialized then
    InitResult.panic doubleInitMsg st s
  else
    match s.init st with
    | Except.error e => InitResult.panic e st (MagicStatic.mk true s.value s.init)
    | Except.ok (st2, v) => InitResult.ok st2 (MagicStatic.mk true (some v) s.init)

/-- `Deref::deref`, private.rs lines 79-85.  `dbg` is the
`debug_assertions` build flag; the `debug_assert!` only exists when it is
set.  The returned `Option T` is the raw storage: `none` models a read of
uninitialized memory (possible in release builds only). -/
def deref {σ T : Type} (dbg : Bool) (s : MagicStatic σ T) : Except String (Option T) :=
  if dbg && !s.initialized then
    Except.error uninitReadMsg
  else
    Except.ok s.value

/-- Body generated by `impl_fmt!` (private.rs lines 90-111) for each of the
nine formatting traits (Debug, Display, Binary, LowerHex, UpperHex, Octal,
Pointer, LowerExp, UpperExp): `(**self).fmt(f)`, i.e. dereference the slot
(with its debug check) and format the contained value with the trait
implementation `fmtT` of `T`. -/
def msFmt {σ T : Type} (dbg : Bool) (fmtT : T → String) (s : MagicStatic σ T) :
    Except String (Option String) :=
  (deref dbg s).map (fun o => o.map fmtT)

/-!
Group initializer model.  The `init!` macro (lib.rs lines 277-297) expands
an ordered list of targets into sequential statements: `$path.__init()` for
a slot target and `$path::magic_static()` for a `mod` target, where the
function generated by `magic_statics_mod!` (lib.rs lines 209-221) is itself
an `init!` over that module ordered list of slots.  So a group is an
ordered tree of entries, slots identified by `Nat` ids; running it threads
the set of already-set flags left to right and recurses depth-first, and a
visit of an already-flagged slot panics (the `__init` double-init panic),
aborting the rest of the sequence.  `runEntries` returns `none` on such a
panic, and otherwise the final flag set together with the trace of slot ids
whose producer ran, in execution order.
-/

mutual

inductive Entry where
  | slot : Nat → Entry
  | group : Entries → Entry

inductive Entries where
  | nil : Entries
  | cons : Entry → Entries → Entries

end

mutual

/-- Run one `init!` target: a slot runs `__init` on it (panic if its flag
is already set, else set the flag and trace the producer run), a `mod`
target runs the generated `magic_static()` function, i.e. the nested
group. -/
def runEntry : Entry → List Nat → Option (List Nat × List Nat)
  | Entry.slot i, inited =>
    if i ∈ inited then none else some (i :: inited, [i])
  | Entry.group es, inited => runEntries es inited

/-- Run an `init!` sequence of targets strictly left to right, each target
completing before the next begins; a panic aborts the sequence. -/
def runEntries : Entries → List Nat → Option (List Nat × List Nat)
  | Entries.nil, inited => some (inited, [])
  | Entries.cons e es, inited =>
    match runEntry e inited with
    | none => none
    | some (inited2, tr) =>
      match runEntries es inited2 with
      | none => none
      | some (inited3, tr2) => some (inited3, tr ++ tr2)

end

mutual

/-- Declared depth-first order of the slots of one target. -/
def flattenEntry : Entry → List Nat
  | Entry.slot i => [i]
  | Entry.group es => flattenEntries es

/-- Declared depth-first order of the slots of a target sequence. -/
def flattenEntries : Entries → List Nat
  | Entries.nil => []
  | Entries.cons e es => flattenEntry e ++ flattenEntries es

end

/-!
Two-thread interleaving model of the default-build `__init`
(private.rs lines 52-63) for the contention scenario of spec property P1:
both threads call `__init` on the same fresh slot whose producer increments
a shared counter (and returns 42, written to the shared storage).

`fetch_update(SeqCst, SeqCst, f)` is the loop: atomically load the flag;
if the loaded value is `true` the closure yields `None` and the call
returns `Err(true)` (so `__init` panics); if it is `false` the closure
runs the producer and writes the storage, then a compare-and-set from
`false` to `true` is attempted: on success the call returns `Ok(false)`
(normal return of `__init`), on failure the loop retries with the fresh
value.  The producer call and the storage write between the two atomic
operations are coarsened into one step; every coarse interleaving is
realizable by the source as a contiguous run of its fine-grained steps.
-/

/-- Shared memory of the simulation: the slot flag, the counter bumped by
the producer, and the slot storage. -/
structure SimState where
  flag : Bool
  counter : Nat
  storage : Option Nat
deriving DecidableEq

/-- Program counter of one thread inside `__init`. -/
inductive TPC where
  | start : TPC
  | loaded : Bool → TPC
  | staged : TPC
  | doneOk : TPC
  | donePanic : TPC
deriving DecidableEq

/-- One atomic step of a thread running `__init` on the shared slot. -/
def stepThread (g : SimState) : TPC → SimState × TPC
  | TPC.start => (g, TPC.loaded g.flag)
  | TPC.loaded true => (g, TPC.donePanic)
  | TPC.loaded false =>
    (SimState.mk g.flag (g.counter + 1) (some 42), TPC.staged)
  | TPC.staged =>
    if g.flag then (g, TPC.start)
    else (SimState.mk true g.counter g.storage, TPC.doneOk)
  | TPC.doneOk => (g, TPC.doneOk)
  | TPC.donePanic => (g, TPC.donePanic)

/-- Combined state of the two contending threads. -/
structure Sim2 where
  glob : SimState
  t0 : TPC
  t1 : TPC
deriving DecidableEq

/-- Let the scheduled thread (`false` = thread 0, `true` = thread 1) take
one step. -/
def simStep (s : Sim2) (tid : Bool) : Sim2 :=
  if tid then
    let p := stepThread s.glob s.t1
    Sim2.mk p.1 s.t0 p.2
  else
    let p := stepThread s.glob s.t0
    Sim2.mk p.1 p.2 s.t1

/-- Run a schedule (a list of thread ids) from a state. -/
def runSched (sched : List Bool) (s : Sim2) : Sim2 :=
  sched.foldl simStep s

/-- Both threads about to call `__init` on the fresh slot. -/
def sim2Init : Sim2 :=
  Sim2.mk (SimState.mk false 0 none) TPC.start TPC.start

/-- The schedule in which both threads load the flag before either
compare-and-set: thread 0 and thread 1 alternate through load and
producer, thread 0 wins the compare-and-set, thread 1 retries, reloads
`true` and panics. -/
def sched2 : List Bool :=
  [false, true, false, true, false, true, true, true]

/-- A fresh slot whose producer just returns 42 (effect state untouched). -/
def fresh42 : MagicStatic Nat Nat :=
  ⟨false, none, fun st => Except.ok (st, 42)⟩

/-- An already-set slot holding 7; its producer would bump the effect
state and return 99 if it ever ran. -/
def inited7 : MagicStatic Nat Nat :=
  ⟨true, some 7, fun st => Except.ok (st + 1, 99)⟩

/-- A fresh slot whose producer panics on the first attempt (effect state
0) and succeeds on later attempts, bumping the effect state and
returning 42. -/
def flaky : MagicStatic Nat Nat :=
  ⟨false, none, fun st => if st = 0 then Except.error "boom" else Except.ok (st + 1, 42)⟩

/-- A nested group: a sub-group of slots 1 and 2 followed by slot 3,
as produced by `init! { mod sub, three }`. -/
def sampleEntries : Entries :=
  Entries.cons
    (Entry.group (Entries.cons (Entry.slot 1) (Entries.cons (Entry.slot 2) Entries.nil)))
    (Entries.cons (Entry.slot 3) Entries.nil)

/-!
Theorems settling the claims.
-/

/-- Claim C9: in the multi-threaded (non bare-metal) build, a second
sequential call to `__init` on an already-set slot panics with the
descriptive double-init message rather than returning silently, leaving
the effect state and the slot untouched (in particular the producer does
not run again, for every producer). -/
theorem second_init_panics {σ T : Type} (s : MagicStatic σ T) (st : σ)
    (h : s.initialized = true) :
    __init s st = InitResult.panic doubleInitMsg st s := by
  simp [__init, h]

/-- Witness for claim C9 at the concrete already-set slot `inited7`. -/
theorem second_init_panics_witness :
    __init inited7 0 = InitResult.panic doubleInitMsg 0 inited7 :=
  second_init_panics inited7 0 rfl

/-- Claim C1 evidence: `__init` is NOT idempotent in the code.  After one
completed `__init` on the fresh slot `fresh42`, replaying `__init` on the
resulting slot panics with the double-init message instead of returning
as a no-op. -/
theorem replay_init_panics_concrete :
    (__init fresh42 0).isPanic = false ∧
    ((__init fresh42 0).slotOf).initialized = true ∧
    (__init ((__init fresh42 0).slotOf) 0).isPanic = true ∧
    (__init ((__init fresh42 0).slotOf) 0).panicMsg = some doubleInitMsg :=
  ⟨rfl, rfl, rfl, rfl⟩

/-- Claim C4: in the bare-metal build, the first call on a fresh slot
produces the value, and a second call panics with the double-init message
while the slot (and so the value produced by the first call) and the
effect state are left unchanged. -/
theorem bare_metal_double_init {σ T : Type} (s : MagicStatic σ T) (st st2 st3 : σ) (v : T)
    (h1 : s.initialized = false) (h2 : s.init st = Except.ok (st3, v)) :
    initBM s st = InitResult.ok st3 (MagicStatic.mk true (some v) s.init) ∧
    initBM (MagicStatic.mk true (some v) s.init) st2 =
      InitResult.panic doubleInitMsg st2 (MagicStatic.mk true (some v) s.init) := by
  constructor
  · simp [initBM, h1, h2]
  · simp [initBM]

/-- Witness for claim C4 at the concrete fresh slot `fresh42`. -/
theorem bare_metal_double_init_witness :
    initBM fresh42 0 = InitResult.ok 0 (MagicStatic.mk true (some 42) fresh42.init) ∧
    initBM (MagicStatic.mk true (some 42) fresh42.init) 5 =
      InitResult.panic doubleInitMsg 5 (MagicStatic.mk true (some 42) fresh42.init) :=
  bare_metal_double_init fresh42 0 5 0 42 rfl rfl

/-- Claim C6: after a successful `__init` on a fresh slot, `deref` (in
debug or release builds alike) yields exactly the value the producer
returned. -/
theorem init_then_read {σ T : Type} (s : MagicStatic σ T) (st st2 : σ) (v : T) (dbg : Bool)
    (h1 : s.initialized = false) (h2 : s.init st = Except.ok (st2, v)) :
    __init s st = InitResult.ok st2 (MagicStatic.mk true (some v) s.init) ∧
    deref dbg (MagicStatic.mk true (some v) s.init) = Except.ok (some v) := by
  constructor
  · simp [__init, h1, h2]
  · simp [deref]

/-- Witness for claim C6 at the concrete fresh slot `fresh42`. -/
theorem init_then_read_witness :
    __init fresh42 0 = InitResult.ok 0 (MagicStatic.mk true (some 42) fresh42.init) ∧
    deref true (MagicStatic.mk true (some 42) fresh42.init) = Except.ok (some 42) :=
  init_then_read fresh42 0 0 42 true rfl rfl

/-- Claim C7: with `debug_assertions` set, `deref` on a slot whose flag is
unset panics with the descriptive message; without `debug_assertions`
there is no check and `deref` returns the raw storage unconditionally. -/
theorem deref_debug_check {σ T : Type} (s : MagicStatic σ T) :
    (s.initialized = false → deref true s = Except.error uninitReadMsg) ∧
    deref false s = Except.ok s.value := by
  constructor
  · intro h
    simp [deref, h]
  · simp [deref]

/-- Witness for claim C7 at the concrete uninitialized slot `fresh42`. -/
theorem deref_debug_check_witness :
    deref true fresh42 = Except.error uninitReadMsg ∧
    deref false fresh42 = Except.ok fresh42.value :=
  ⟨(deref_debug_check fresh42).1 rfl, (deref_debug_check fresh42).2⟩

/-- Claim C3 counterexample: a panicking producer does NOT leave the slot
in a terminal state in the default build.  On `flaky`, the first `__init`
propagates the producer panic and leaves the flag unset, and a later
`__init` retries the producer: it runs again (the effect state advances
to 2) and succeeds, storing 42 — contradicting the claim that a future
`__init` does not retry the producer. -/
theorem producer_panic_retries_cex :
    __init flaky 0 = InitResult.panic "boom" 0 flaky ∧
    ((__init flaky 0).slotOf).initialized = false ∧
    (__init flaky 1).isPanic = false ∧
    ((__init flaky 1).slotOf).value = some 42 ∧
    (__init flaky 1).stateOf = 2 :=
  ⟨rfl, rfl, rfl, rfl, rfl⟩

/-- Claim C3 as amended: in the default build a producer panic propagates
to the caller with flag and storage untouched, so subsequent debug reads
still fail the check; but the flag never advanced, so a future `__init`
call retries the producer and can succeed. -/
theorem producer_panic_propagates {σ T : Type} (s : MagicStatic σ T) (st : σ) (e : String)
    (h1 : s.initialized = false) (h2 : s.init st = Except.error e) :
    __init s st = InitResult.panic e st s ∧
    deref true s = Except.error uninitReadMsg ∧
    ∀ st2 st3 v, s.init st2 = Except.ok (st3, v) →
      __init s st2 = InitResult.ok st3 (MagicStatic.mk true (some v) s.init) := by
  refine ⟨?_, ?_, ?_⟩
  · simp [__init, h1, h2]
  · simp [deref, h1]
  · intro st2 st3 v h3
    simp [__init, h1, h3]

/-- Witness for the amended claim C3 at the concrete slot `flaky`. -/
theorem producer_panic_propagates_witness :
    __init flaky 0 = InitResult.panic "boom" 0 flaky ∧
    deref true flaky = Except.error uninitReadMsg ∧
    __init flaky 1 = InitResult.ok 2 (MagicStatic.mk true (some 42) flaky.init) :=
  ⟨(producer_panic_propagates flaky 0 "boom" rfl rfl).1,
   (producer_panic_propagates flaky 0 "boom" rfl rfl).2.1,
   (producer_panic_propagates flaky 0 "boom" rfl rfl).2.2 1 2 42 rfl⟩

/-- Claim C8 counterexample: the slot state in the code is the flag type
`SlotFlag` (a `bool` behind `AtomicBool` or `UnsafeCell<bool>`), which has
no three distinct values — there is no `Initializing` state. -/
theorem slot_state_not_three_valued :
    ¬ ∃ a b c : SlotFlag, a ≠ b ∧ a ≠ c ∧ b ≠ c := by
  decide

/-- Claim C8 as amended: the slot state is two-valued (no `Initializing`
value) and monotonic: an already-set flag stays set through `__init` and
`initBM` whatever the outcome — no operation ever moves the state
backward — and a normal return of either moves the flag from unset to
set.  The unset-to-set transition differs per build: in the default build
a panicking `__init` leaves the flag exactly as it was, so only a normal
return sets it, while in the bare-metal build the flag is set before the
producer runs, so any `initBM` call on an unset flag sets it, even one
whose producer panics. -/
theorem slot_state_monotone {σ T : Type} (s : MagicStatic σ T) (st : σ) :
    (s.initialized = true →
      ((__init s st).slotOf).initialized = true ∧
      ((initBM s st).slotOf).initialized = true) ∧
    (∀ st2 s2, __init s st = InitResult.ok st2 s2 →
      s.initialized = false ∧ s2.initialized = true) ∧
    (∀ st2 s2, initBM s st = InitResult.ok st2 s2 →
      s.initialized = false ∧ s2.initialized = true) ∧
    (∀ m st2 s2, __init s st = InitResult.panic m st2 s2 →
      s2.initialized = s.initialized) ∧
    (s.initialized = false → ((initBM s st).slotOf).initialized = true) := by
  refine ⟨?_, ?_, ?_, ?_, ?_⟩
  · intro h
    simp [__init, initBM, h, InitResult.slotOf]
  · intro st2 s2 hok
    cases hi : s.initialized with
    | true => simp [__init, hi] at hok
    | false =>
      cases hp : s.init st with
      | error e => simp [__init, hi, hp] at hok
      | ok p =>
        obtain ⟨st3, v⟩ := p
        simp [__init, hi, hp] at hok
        obtain ⟨-, h2⟩ := hok
        refine ⟨rfl, ?_⟩
        rw [← h2]
  · intro st2 s2 hok
    cases hi : s.initialized with
    | true => simp [initBM, hi] at hok
    | false =>
      cases hp : s.init st with
      | error e => simp [initBM, hi, hp] at hok
      | ok p =>
        obtain ⟨st3, v⟩ := p
        simp [initBM, hi, hp] at hok
        obtain ⟨-, h2⟩ := hok
        refine ⟨rfl, ?_⟩
        rw [← h2]
  · intro m st2 s2 hp
    cases hi : s.initialized with
    | true =>
      simp [__init, hi] at hp
      obtain ⟨-, -, h2⟩ := hp
      rw [← h2]
      exact hi
    | false =>
      cases hp2 : s.init st with
      | error e =>
        simp [__init, hi, hp2] at hp
        obtain ⟨-, -, h2⟩ := hp
        rw [← h2]
        exact hi
      | ok p =>
        obtain ⟨st3, v⟩ := p
        simp [__init, hi, hp2] at hp
  · intro h
    cases hp : s.init st with
    | error e => simp [initBM, h, hp, InitResult.slotOf]
    | ok p =>
      obtain ⟨st3, v⟩ := p
      simp [initBM, h, hp, InitResult.slotOf]

/-- Witness for the amended claim C8: the set slot `inited7` stays set, a
normal return of `__init` on the fresh slot `fresh42` moves unset to set,
a panicking `__init` on the fresh slot `flaky` leaves its flag exactly as
it was, and a bare-metal call on `flaky` sets the flag even though the
producer panics. -/
theorem slot_state_monotone_witness :
    (((__init inited7 0).slotOf).initialized = true ∧
     ((initBM inited7 0).slotOf).initialized = true) ∧
    (fresh42.initialized = false ∧
     (MagicStatic.mk true (some 42) fresh42.init).initialized = true) ∧
    flaky.initialized = flaky.initialized ∧
    ((initBM flaky 0).slotOf).initialized = true :=
  ⟨(slot_state_monotone inited7 0).1 rfl,
   (slot_state_monotone fresh42 0).2.1 0 (MagicStatic.mk true (some 42) fresh42.init) rfl,
   (slot_state_monotone flaky 0).2.2.2.1 "boom" 0 flaky rfl,
   (slot_state_monotone flaky 0).2.2.2.2 rfl⟩

/-- Claim C2 evidence: an interleaving of two threads contending on a
fresh slot in which both load the flag before either compare-and-set.
The producer runs twice (the shared counter ends at 2, not 1) and the
losing thread panics instead of returning. -/
theorem contended_init_runs_producer_twice :
    (runSched sched2 sim2Init).glob.counter = 2 ∧
    (runSched sched2 sim2Init).t0 = TPC.doneOk ∧
    (runSched sched2 sim2Init).t1 = TPC.donePanic :=
  ⟨rfl, rfl, rfl⟩

/-- Claim C10: every formatting implementation generated by `impl_fmt!`
delegates to the contained value through the dereference: on a set slot
holding `v` it produces exactly the formatting of `v`, and it fails the
debug check exactly when `deref` does (same message, debug builds only). -/
theorem fmt_delegates {σ T : Type} (dbg : Bool) (fmtT : T → String) (s : MagicStatic σ T) :
    (∀ v, s.initialized = true → s.value = some v →
      msFmt dbg fmtT s = Except.ok (some (fmtT v))) ∧
    (dbg = true → s.initialized = false → msFmt dbg fmtT s = Except.error uninitReadMsg) ∧
    (msFmt dbg fmtT s = Except.error uninitReadMsg ↔ deref dbg s = Except.error uninitReadMsg) := by
  refine ⟨?_, ?_, ?_⟩
  · intro v h1 h2
    simp [msFmt, deref, Except.map, h1, h2]
  · intro h1 h2
    simp [msFmt, deref, Except.map, h1, h2]
  · by_cases h : (dbg && !s.initialized) = true
    · simp [msFmt, deref, Except.map, h]
    · simp [msFmt, deref, Except.map, h]

/-- Witness for claim C10 at the set slot `inited7` and the fresh slot
`fresh42`, with decimal formatting for the contained number. -/
theorem fmt_delegates_witness :
    msFmt true (fun n => toString n) inited7 = Except.ok (some (toString 7)) ∧
    msFmt true (fun n => toString n) fresh42 = Except.error uninitReadMsg :=
  ⟨(fmt_delegates true (fun n => toString n) inited7).1 7 rfl rfl,
   (fmt_delegates true (fun n => toString n) fresh42).2.1 rfl rfl⟩

mutual

/-- Helper for claim C5: running one target from a flag set disjoint from
its slots succeeds and its producer trace is exactly its declared
depth-first order. -/
theorem runEntry_spec (e : Entry) (inited : List Nat)
    (hnd : (flattenEntry e).Nodup)
    (hdisj : ∀ i ∈ flattenEntry e, i ∉ inited) :
    runEntry e inited = some ((flattenEntry e).reverse ++ inited, flattenEntry e) := by
  cases e with
  | slot i =>
    have hi : i ∉ inited := hdisj i (by simp [flattenEntry])
    simp [runEntry, flattenEntry, hi]
  | group es =>
    have h := runEntries_spec es inited (by simpa [flattenEntry] using hnd)
      (by simpa [flattenEntry] using hdisj)
    simpa [runEntry, flattenEntry] using h

/-- Helper for claim C5: running a target sequence from a flag set
disjoint from its slots succeeds and its producer trace is exactly the
declared depth-first order of the sequence. -/
theorem runEntries_spec (es : Entries) (inited : List Nat)
    (hnd : (flattenEntries es).Nodup)
    (hdisj : ∀ i ∈ flattenEntries es, i ∉ inited) :
    runEntries es inited = some ((flattenEntries es).reverse ++ inited, flattenEntries es) := by
  cases es with
  | nil => simp [runEntries, flattenEntries]
  | cons e es2 =>
    rw [flattenEntries] at hnd hdisj
    rw [List.nodup_append] at hnd
    obtain ⟨hnd1, hnd2, hdj⟩ := hnd
    have h1 := runEntry_spec e inited hnd1
      (fun i hi => hdisj i (List.mem_append_left _ hi))
    have hdisj2 : ∀ i ∈ flattenEntries es2, i ∉ (flattenEntry e).reverse ++ inited := by
      intro i hi
      rw [List.mem_append, List.mem_reverse]
      rintro (hmem | hmem)
      · exact hdj hmem hi
      · exact hdisj i (List.mem_append_right _ hi) hmem
    have h2 := runEntries_spec es2 ((flattenEntry e).reverse ++ inited) hnd2 hdisj2
    simp [runEntries, h1, h2, flattenEntries, List.reverse_append, List.append_assoc]

end

/-- Claim C5: the group initializer generated by `init!` executes its
targets strictly in declared order, one target completing fully before the
next begins, recursing into nested groups depth-first: for any nest of
groups over distinct fresh slots, the trace of producer executions is
exactly the depth-first flattening of the declaration. -/
theorem group_runs_depth_first (es : Entries) (hnd : (flattenEntries es).Nodup) :
    runEntries es [] = some ((flattenEntries es).reverse, flattenEntries es) := by
  simpa using runEntries_spec es [] hnd (by simp)

/-- Witness for claim C5 at the concrete nested group `sampleEntries`:
slots 1 and 2 of the nested group run in their declared order before the
trailing slot 3. -/
theorem group_runs_depth_first_witness :
    (flattenEntries sampleEntries).Nodup ∧
    runEntries sampleEntries [] =
      some ((flattenEntries sampleEntries).reverse, flattenEntries sampleEntries) :=
  ⟨by decide, group_runs_depth_first sampleEntries (by decide)⟩

end MagicStaticSpec
